import Mathlib

/-!
Shallow embedding of the `python-logging-playground` MongoDB logging core:

* `src/db_handlers/mongodb/mongodb_handler.py` — `MongoDBHandler`, a
  `logging.Handler` subclass whose `emit` inserts the log record's message
  (a dict, or a string wrapped as `{"message": ...}`) into a MongoDB
  collection, enriched with a `timestamp` and `level` field, catching every
  storage exception via `handleError`.
* `src/db_handlers/mongodb/decorator.py` — `MongoDBLogDecorator`, whose
  `__init__` fetches the process-wide logger named `"MongoDBLogger"`, sets
  its level to DEBUG and attaches one `MongoDBHandler` only when the logger
  has no handlers yet, and whose `__call__` wraps a function: it times the
  call, captures result / exception in a `try/except/finally`, builds a
  payload dict in the `finally` block and logs it at `info` (success) or
  `error` (failure) severity.

Python numbers are modelled as exact rationals (`ℚ`); the floating-point
computations appearing in the verified concrete scenarios are exact in
binary64, so the rational model agrees with the Python values there.
Python exceptions are modelled as a (type name, message) pair, and a Python
expression that may raise is modelled as an `Except PyExn` value.
Stringification (`str(...)`) of caller-supplied objects may itself raise in
Python (`__str__`/`__repr__` can throw), so the stringifications of the
arguments and of the result of one wrapped invocation enter the model as
`Except PyExn String` inputs.
-/

set_option autoImplicit false

namespace LoggingPlayground

/-- A Python exception, reduced to its type name and its message
(`str(e)` of a standard exception returns the message). -/
structure PyExn where
  ty : String
  msg : String
deriving DecidableEq

/-- View of `Except` as a sum, to decide equality of outcomes. -/
def exceptToSum {ε α : Type} : Except ε α → ε ⊕ α
  | Except.error e => Sum.inl e
  | Except.ok a => Sum.inr a

instance exceptDecEq {ε α : Type} [DecidableEq ε] [DecidableEq α] :
    DecidableEq (Except ε α) := fun x y =>
  decidable_of_iff (exceptToSum x = exceptToSum y)
    (by cases x <;> cases y <;> simp [exceptToSum])

/-- Numeric value of `logging.NOTSET`. -/
def NOTSET : Nat := 0

/-- Numeric value of `logging.DEBUG`. -/
def DEBUG : Nat := 10

/-- Numeric value of `logging.INFO`. -/
def INFO : Nat := 20

/-- Numeric value of `logging.ERROR`. -/
def ERROR : Nat := 40

/-- `logging.getLevelName` restricted to the levels this system uses
(it provides `record.levelname`). -/
def levelName (lvl : Nat) : String :=
  if lvl = 40 then "ERROR"
  else if lvl = 20 then "INFO"
  else if lvl = 10 then "DEBUG"
  else "NOTSET"

/-- Identity of a MongoDB collection: the client's connection string, the
database name and the collection name chosen in `MongoDBLogDecorator.__init__`. -/
structure CollectionRef where
  host : String
  dbName : String
  collName : String
deriving DecidableEq

/-- State of a `MongoDBHandler` instance: the target collection and the
handler level (`logging.Handler.__init__` defaults it to `NOTSET`). -/
structure MongoDBHandler where
  collection : CollectionRef
  level : Nat
deriving DecidableEq

/-- Mutable state of one `logging.Logger`: its level and handler list. -/
structure LoggerState where
  level : Nat
  handlers : List MongoDBHandler
deriving DecidableEq

/-- A logger as `logging.getLogger` first creates it: no handlers,
level `NOTSET`. -/
def freshLogger : LoggerState := ⟨NOTSET, []⟩

/-- The process-wide logger registry (`logging.Logger.manager.loggerDict`),
keyed by logger name. -/
abbrev Registry := List (String × LoggerState)

/-- `logging.getLogger(name)`: the existing logger state, or a fresh one. -/
def getLogger (r : Registry) (n : String) : LoggerState :=
  match r with
  | [] => freshLogger
  | (m, s) :: t => if m = n then s else getLogger t n

/-- Store a logger state back into the registry under its name
(replacing the existing entry, else appending). -/
def updLogger (r : Registry) (n : String) (s : LoggerState) : Registry :=
  match r with
  | [] => [(n, s)]
  | (m, t) :: rest => if m = n then (n, s) :: rest else (m, t) :: updLogger rest n s

/-- The value a stored MongoDB document field can take in this system:
a string, a number, Python `None`, or the handler-assigned datetime. -/
inductive PyVal where
  | vStr (s : String)
  | vNum (q : ℚ)
  | vNone
  | vTime (t : ℚ)
deriving DecidableEq

/-- A Python dict as stored in MongoDB: an ordered association list. -/
abbrev Document := List (String × PyVal)

/-- Dict lookup. -/
def lookupKey (d : Document) (key : String) : Option PyVal :=
  match d with
  | [] => none
  | (k, v) :: t => if k = key then some v else lookupKey t key

/-- Dict assignment (`d[key] = v`, as performed by `dict.update`):
replaces the value at an existing key in place, else appends. -/
def setKey (d : Document) (key : String) (v : PyVal) : Document :=
  match d with
  | [] => [(key, v)]
  | (k, w) :: t => if k = key then (k, v) :: t else (k, w) :: setKey t key v

/-- The `msg` carried by a `logging.LogRecord` in this system: either the
decorator's structured payload dict or a plain string. -/
inductive LogMsg where
  | mDict (d : Document)
  | mStr (s : String)
deriving DecidableEq

/-- The parts of a `logging.LogRecord` that `MongoDBHandler.emit` reads. -/
structure LogRecord where
  msg : LogMsg
  levelno : Nat
deriving DecidableEq

/-- `record.levelname`. -/
def LogRecord.levelname (lr : LogRecord) : String := levelName lr.levelno

/-- One completed MongoDB insert: target collection and stored document. -/
structure Write where
  target : CollectionRef
  doc : Document
deriving DecidableEq

/-- `collection.insert_one(log_entry)` (mongodb_handler.py line 39): the
`ok` oracle decides whether the storage write succeeds or the driver raises. -/
def insertOne (c : CollectionRef) (ok : Bool) (d : Document) : Except PyExn (List Write) :=
  if ok then Except.ok [⟨c, d⟩] else Except.error ⟨"PyMongoError", "insert failed"⟩

/-- The `isinstance(record.msg, dict)` branch of `MongoDBHandler.emit`
(mongodb_handler.py lines 27-30): a dict message is taken as-is, any other
message is wrapped as `{"message": str(msg)}`. -/
def baseEntry (m : LogMsg) : Document :=
  match m with
  | LogMsg.mDict d => d
  | LogMsg.mStr s => [("message", PyVal.vStr s)]

/-- The `try` block of `MongoDBHandler.emit` (mongodb_handler.py lines 26-39):
take the base entry, update it with `timestamp` (handler-side
`datetime.now()`, the `now` argument) and `level`, and insert it. -/
def MongoDBHandler.emitTry (h : MongoDBHandler) (ok : Bool) (now : ℚ) (lr : LogRecord) :
    Except PyExn (List Write) :=
  let log_entry := setKey (setKey (baseEntry lr.msg) "timestamp" (PyVal.vTime now)) "level"
    (PyVal.vStr lr.levelname)
  insertOne h.collection ok log_entry

/-- `MongoDBHandler.emit` (mongodb_handler.py lines 18-41): the `try` body
with its catch-all `except Exception: self.handleError(record)`. Returns the
completed writes and whether `handleError` was invoked; it never raises. -/
def MongoDBHandler.emit (h : MongoDBHandler) (ok : Bool) (now : ℚ) (lr : LogRecord) :
    List Write × Bool :=
  match h.emitTry ok now lr with
  | Except.ok ws => (ws, false)
  | Except.error _ => ([], true)

/-- `Logger.info` / `Logger.error` (CPython `Logger._log` + `callHandlers`):
if the logger's level admits `lvl`, hand a record to every handler whose own
level admits it; each `MongoDBHandler.emit` contributes its writes. -/
def LoggerState.logAt (s : LoggerState) (lvl : Nat) (ok : Bool) (now : ℚ) (msg : LogMsg) :
    List Write :=
  if s.level ≤ lvl then
    (s.handlers.filter fun h => decide (h.level ≤ lvl)).flatMap
      fun h => (MongoDBHandler.emit h ok now ⟨msg, lvl⟩).1
  else []

/-- The logger name hardcoded in `MongoDBLogDecorator.__init__` (line 29). -/
def loggerName : String := "MongoDBLogger"

/-- `MongoDBLogDecorator.__init__` (decorator.py lines 17-35) as a registry
transition: fetch the shared logger `"MongoDBLogger"`, set its level to
DEBUG, and attach a single `MongoDBHandler` for this instance's collection
only when the logger has no handlers yet. -/
def MongoDBLogDecorator.init (cfg : CollectionRef) (r : Registry) : Registry :=
  let s := getLogger r loggerName
  let s := { s with level := DEBUG }
  let s := if s.handlers = [] then { s with handlers := s.handlers ++ [⟨cfg, NOTSET⟩] } else s
  updLogger r loggerName s

/-- The payload dict built in the wrapper's `finally` block
(decorator.py lines 57-65). `exception` is `None` or a string; every other
field is always set. -/
structure LogPayload where
  function : String
  args : String
  kwargs : String
  result : String
  exception : Option String
  status : String
  duration_ms : ℚ
deriving DecidableEq

/-- The payload dict in stored-document form, fields in source order. -/
def LogPayload.toDoc (p : LogPayload) : Document :=
  [ ("function", PyVal.vStr p.function)
  , ("args", PyVal.vStr p.args)
  , ("kwargs", PyVal.vStr p.kwargs)
  , ("result", PyVal.vStr p.result)
  , ("exception", match p.exception with
      | some m => PyVal.vStr m
      | none => PyVal.vNone)
  , ("status", PyVal.vStr p.status)
  , ("duration_ms", PyVal.vNum p.duration_ms) ]

/-- Round half to even, as Python's built-in `round` does. -/
def roundHalfEven (q : ℚ) : ℤ :=
  if q - ⌊q⌋ < 1/2 then ⌊q⌋
  else if 1/2 < q - ⌊q⌋ then ⌊q⌋ + 1
  else if ⌊q⌋ % 2 = 0 then ⌊q⌋ else ⌊q⌋ + 1

/-- `round(number=duration, ndigits=2)` (decorator.py line 64). -/
def round2 (q : ℚ) : ℚ := (roundHalfEven (q * 100) : ℚ) / 100

/-- One invocation of a wrapped callable, as the wrapper observes it:
the function's `__name__`; the outcome of `func(*args, **kwargs)`; the
outcomes of `str(args)`, `str(kwargs)` and (per returned object) of
`str(result)` — each may raise, since Python stringification of
caller-supplied objects can throw; and the two `time()` readings taken at
entry (line 41) and inside the `finally` block (line 55), in seconds. -/
structure Invocation (β : Type) where
  funcName : String
  call : Except PyExn β
  strArgs : Except PyExn String
  strKwargs : Except PyExn String
  strOf : β → Except PyExn String
  t0 : ℚ
  t1 : ℚ

/-- `str(result)` as evaluated in the `finally` block: the returned object's
stringification on the success path, `str(None) = "None"` on the error path
(the local `result` keeps its initial `None`). -/
def resStr {β : Type} (iv : Invocation β) : Except PyExn String :=
  match iv.call with
  | Except.ok v => iv.strOf v
  | Except.error _ => Except.ok "None"

/-- What one run of the wrapper produces before the logger is consulted:
the outcome delivered to the caller, and the `(severity, payload)` calls
made on the logger. -/
structure WrapOutcome (β : Type) where
  outcome : Except PyExn β
  emitted : List (Nat × LogPayload)
deriving DecidableEq

/-- The wrapper body `MongoDBLogDecorator.__call__.wrapper`
(decorator.py lines 40-71). The `try/except` captures outcome, status and
error message; the `finally` block computes the duration, builds the payload
dict — evaluating `str(args)`, `str(kwargs)`, `str(result)` in that order —
and logs it at `info` or `error` according to `status`. A raise inside the
`finally` block (a failing stringification) replaces the in-flight outcome
and skips the logging call, exactly as in Python. -/
def wrapperRun {β : Type} (iv : Invocation β) : WrapOutcome β :=
  let status : String :=
    match iv.call with
    | Except.ok _ => "success"
    | Except.error _ => "error"
  let error_msg : Option String :=
    match iv.call with
    | Except.ok _ => none
    | Except.error e => some e.msg
  let duration : ℚ := (iv.t1 - iv.t0) * 1000
  match iv.strArgs, iv.strKwargs, resStr iv with
  | Except.ok sa, Except.ok sk, Except.ok sr =>
      let log_payload : LogPayload :=
        { function := iv.funcName
        , args := sa
        , kwargs := sk
        , result := sr
        , exception := error_msg
        , status := status
        , duration_ms := round2 duration }
      let calls : List (Nat × LogPayload) :=
        match status with
        | "success" => [(INFO, log_payload)]
        | "error" => [(ERROR, log_payload)]
        | _ => []
      ⟨iv.call, calls⟩
  | Except.error e, _, _ => ⟨Except.error e, []⟩
  | Except.ok _, Except.error e, _ => ⟨Except.error e, []⟩
  | Except.ok _, Except.ok _, Except.error e => ⟨Except.error e, []⟩

/-- The wrapper composed with the shared logger and the MongoDB handler:
outcome for the caller, plus the completed storage writes. `ok` is the
storage oracle, `now` the handler-side timestamp. -/
def wrapperFull {β : Type} (iv : Invocation β) (r : Registry) (ok : Bool) (now : ℚ) :
    Except PyExn β × List Write :=
  let w := wrapperRun iv
  let lg := getLogger r loggerName
  (w.outcome, w.emitted.flatMap fun sp => lg.logAt sp.1 ok now (LogMsg.mDict sp.2.toDoc))

/-- Python `str()` of a float whose value is an integer (the only float
stringifications the verified scenarios reach): `str(1100.0) = "1100.0"`.
Non-integral values fall back to the raw rational rendering; no claim
evaluates that branch. -/
def pyFloatStr (q : ℚ) : String :=
  if q.den = 1 then toString q.num ++ ".0" else toString q

/-- `calculate_payment` (decorator.py lines 87-91) over exact rationals:
raises `ValueError` on a negative price, else returns `price * (1 + tax_rate)`.
For the verified inputs the binary64 computation is exact, so the rational
model returns the same value as the Python float code. -/
def calculate_payment (price tax_rate : ℚ) : Except PyExn ℚ :=
  if price < 0 then Except.error ⟨"ValueError", "가격은 음수일 수 없습니다."⟩
  else Except.ok (price * (1 + tax_rate))

/-! ### Helper lemmas -/

theorem wrapperRun_ok {β : Type} (iv : Invocation β) (v : β) (sa sk sr : String)
    (hc : iv.call = Except.ok v) (ha : iv.strArgs = Except.ok sa)
    (hk : iv.strKwargs = Except.ok sk) (hr : iv.strOf v = Except.ok sr) :
    wrapperRun iv =
      ⟨Except.ok v,
       [(INFO,
         { function := iv.funcName, args := sa, kwargs := sk, result := sr
         , exception := none, status := "success"
         , duration_ms := round2 ((iv.t1 - iv.t0) * 1000) })]⟩ := by
  have hres : resStr iv = Except.ok sr := by rw [resStr, hc]; exact hr
  unfold wrapperRun
  rw [hc, ha, hk] at *
  simp only [hres, hc]

theorem wrapperRun_error {β : Type} (iv : Invocation β) (e : PyExn) (sa sk : String)
    (hc : iv.call = Except.error e) (ha : iv.strArgs = Except.ok sa)
    (hk : iv.strKwargs = Except.ok sk) :
    wrapperRun iv =
      ⟨Except.error e,
       [(ERROR,
         { function := iv.funcName, args := sa, kwargs := sk, result := "None"
         , exception := some e.msg, status := "error"
         , duration_ms := round2 ((iv.t1 - iv.t0) * 1000) })]⟩ := by
  have hres : resStr iv = Except.ok "None" := by rw [resStr, hc]
  unfold wrapperRun
  simp only [hres, hc, ha, hk]

theorem wrapperRun_strArgs_fail {β : Type} (iv : Invocation β) (e : PyExn)
    (ha : iv.strArgs = Except.error e) :
    wrapperRun iv = ⟨Except.error e, []⟩ := by
  unfold wrapperRun
  simp only [ha]

theorem wrapperRun_strKwargs_fail {β : Type} (iv : Invocation β) (sa : String) (e : PyExn)
    (ha : iv.strArgs = Except.ok sa) (hk : iv.strKwargs = Except.error e) :
    wrapperRun iv = ⟨Except.error e, []⟩ := by
  unfold wrapperRun
  simp only [ha, hk]

theorem wrapperRun_strRes_fail {β : Type} (iv : Invocation β) (sa sk : String) (e : PyExn)
    (ha : iv.strArgs = Except.ok sa) (hk : iv.strKwargs = Except.ok sk)
    (hr : resStr iv = Except.error e) :
    wrapperRun iv = ⟨Except.error e, []⟩ := by
  unfold wrapperRun
  simp only [ha, hk, hr]

theorem lookupKey_setKey_self (d : Document) (k : String) (v : PyVal) :
    lookupKey (setKey d k v) k = some v := by
  induction d with
  | nil => simp [setKey, lookupKey]
  | cons hd tl ih =>
    obtain ⟨k', v'⟩ := hd
    by_cases hkk : k' = k
    · simp [setKey, lookupKey, hkk]
    · simp [setKey, lookupKey, hkk, ih]

theorem lookupKey_setKey_other (d : Document) (k k' : String) (v : PyVal)
    (h : k ≠ k') :
    lookupKey (setKey d k v) k' = lookupKey d k' := by
  induction d with
  | nil => simp [setKey, lookupKey, h]
  | cons hd tl ih =>
    obtain ⟨k0, v0⟩ := hd
    by_cases hk0 : k0 = k
    · subst hk0
      simp [setKey, lookupKey, h]
    · by_cases hk1 : k0 = k'
      · simp [setKey, lookupKey, hk0, hk1, Ne.symm h]
      · simp [setKey, lookupKey, hk0, hk1, ih]

theorem roundHalfEven_ge_floor (q : ℚ) : ⌊q⌋ ≤ roundHalfEven q := by
  unfold roundHalfEven
  split_ifs <;> omega

theorem roundHalfEven_le_ceil (q : ℚ) : roundHalfEven q ≤ ⌊q⌋ + 1 := by
  unfold roundHalfEven
  split_ifs <;> omega

theorem round2_nonneg (q : ℚ) (h : 0 ≤ q) : 0 ≤ round2 q := by
  unfold round2
  have h1 : (0 : ℤ) ≤ ⌊q * 100⌋ := Int.floor_nonneg.mpr (by positivity)
  have h2 : (0 : ℤ) ≤ roundHalfEven (q * 100) := le_trans h1 (roundHalfEven_ge_floor _)
  positivity

theorem round2_ge_int (q : ℚ) (T : ℤ) (h : (T : ℚ) ≤ q) : (T : ℚ) ≤ round2 q := by
  unfold round2
  have h1 : (100 * T : ℤ) ≤ ⌊q * 100⌋ := by
    rw [Int.le_floor]
    push_cast
    linarith
  have h2 : (100 * T : ℤ) ≤ roundHalfEven (q * 100) :=
    le_trans h1 (roundHalfEven_ge_floor _)
  have h3 : ((100 * T : ℤ) : ℚ) ≤ (roundHalfEven (q * 100) : ℚ) := by exact_mod_cast h2
  have h4 : ((100 * T : ℤ) : ℚ) / 100 ≤ (roundHalfEven (q * 100) : ℚ) / 100 :=
    (div_le_div_iff_of_pos_right (by norm_num)).mpr h3
  have h5 : ((100 * T : ℤ) : ℚ) / 100 = (T : ℚ) := by push_cast; ring
  linarith

theorem round2_two_decimals (q : ℚ) : (round2 q * 100).den = 1 := by
  unfold round2
  rw [div_mul_cancel₀ _ (by norm_num : (100 : ℚ) ≠ 0)]
  exact Rat.den_intCast _

theorem init_nil (cfg : CollectionRef) :
    MongoDBLogDecorator.init cfg [] = [(loggerName, ⟨DEBUG, [⟨cfg, NOTSET⟩]⟩)] := by
  simp [MongoDBLogDecorator.init, getLogger, updLogger, freshLogger]

theorem init_already (cfg : CollectionRef) (s : LoggerState) (hs : s.handlers ≠ []) :
    MongoDBLogDecorator.init cfg [(loggerName, s)] = [(loggerName, ⟨DEBUG, s.handlers⟩)] := by
  simp [MongoDBLogDecorator.init, getLogger, updLogger, hs]

theorem init_iterate (cfg : CollectionRef) (n : Nat) (hn : 1 ≤ n) :
    (MongoDBLogDecorator.init cfg)^[n] [] = [(loggerName, ⟨DEBUG, [⟨cfg, NOTSET⟩]⟩)] := by
  induction n with
  | zero => omega
  | succ k ih =>
    rcases Nat.eq_zero_or_pos k with hk | hk
    · subst hk
      rw [Function.iterate_one]
      exact init_nil cfg
    · rw [Function.iterate_succ_apply', ih hk]
      exact init_already cfg _ (by simp)

theorem getLogger_single (s : LoggerState) : getLogger [(loggerName, s)] loggerName = s := by
  simp [getLogger]

theorem emit_ok_oracle (h : MongoDBHandler) (now : ℚ) (lr : LogRecord) :
    MongoDBHandler.emit h true now lr =
      ([⟨h.collection,
         setKey (setKey (baseEntry lr.msg) "timestamp" (PyVal.vTime now)) "level"
           (PyVal.vStr lr.levelname)⟩], false) := by
  simp [MongoDBHandler.emit, MongoDBHandler.emitTry, insertOne]

theorem logAt_single (cfg : CollectionRef) (lvl : Nat) (hl : DEBUG ≤ lvl) (ok : Bool)
    (now : ℚ) (msg : LogMsg) :
    LoggerState.logAt ⟨DEBUG, [⟨cfg, NOTSET⟩]⟩ lvl ok now msg =
      (MongoDBHandler.emit ⟨cfg, NOTSET⟩ ok now ⟨msg, lvl⟩).1 := by
  simp [LoggerState.logAt, hl, NOTSET]

/-! ### Claims -/

/-- C3: a failure of the underlying storage write is caught inside the
Sink's `emit` and never propagates: the call outcome delivered by the
wrapper is the same with a failing sink as with a working one; with a
failing sink the `insert_one` attempt does raise inside the `try` block,
yet `emit` returns normally (no writes, `handleError` invoked), so the
caller of `emit` never observes a sink failure. -/
theorem C3_sink_failure_isolated {β : Type} (iv : Invocation β) (r : Registry) (ok : Bool)
    (now : ℚ) (h : MongoDBHandler) (lr : LogRecord) :
    (wrapperFull iv r false now).1 = (wrapperFull iv r ok now).1 ∧
    MongoDBHandler.emitTry h false now lr = Except.error ⟨"PyMongoError", "insert failed"⟩ ∧
    MongoDBHandler.emit h false now lr = ([], true) := by
  refine ⟨rfl, ?_, ?_⟩ <;> simp [MongoDBHandler.emit, MongoDBHandler.emitTry, insertOne]

/-- C8: `MongoDBHandler.emit` with a working store performs exactly one
storage write; the stored document is the dict message as-is — or a string
message wrapped under the key `"message"` — enriched with the handler-assigned
`timestamp` and the record's `level` name; every key other than the two
enrichment keys is stored unchanged. -/
theorem C8_persist_shape (h : MongoDBHandler) (now : ℚ) (lr : LogRecord) :
    (MongoDBHandler.emit h true now lr).2 = false ∧
    (MongoDBHandler.emit h true now lr).1.map Write.target = [h.collection] ∧
    ∀ w ∈ (MongoDBHandler.emit h true now lr).1,
      lookupKey w.doc "timestamp" = some (PyVal.vTime now) ∧
      lookupKey w.doc "level" = some (PyVal.vStr lr.levelname) ∧
      (∀ k, k ≠ "timestamp" → k ≠ "level" →
        lookupKey w.doc k = lookupKey (baseEntry lr.msg) k) ∧
      (∀ s, lr.msg = LogMsg.mStr s → lookupKey w.doc "message" = some (PyVal.vStr s)) := by
  rw [emit_ok_oracle]
  refine ⟨rfl, rfl, ?_⟩
  intro w hw
  rw [List.mem_singleton] at hw
  subst hw
  refine ⟨?_, ?_, ?_, ?_⟩
  · rw [lookupKey_setKey_other _ _ _ _ (by decide), lookupKey_setKey_self]
  · rw [lookupKey_setKey_self]
  · intro k hk1 hk2
    rw [lookupKey_setKey_other _ _ _ _ (Ne.symm hk2),
      lookupKey_setKey_other _ _ _ _ (Ne.symm hk1)]
  · intro s hs
    rw [lookupKey_setKey_other _ _ _ _ (by decide),
      lookupKey_setKey_other _ _ _ _ (by decide), hs]
    simp [baseEntry, lookupKey]

/-- C8 witness: the shape facts at a concrete handler, timestamp and
string-message record. -/
theorem C8_persist_shape_witness :
    lookupKey [("message", PyVal.vStr "hello"), ("timestamp", PyVal.vTime 5),
      ("level", PyVal.vStr "INFO")] "message" = some (PyVal.vStr "hello") := by
  have h := (C8_persist_shape ⟨⟨"mongodb://localhost:27017", "db", "logs"⟩, 0⟩ 5
    ⟨LogMsg.mStr "hello", 20⟩).2.2
    ⟨⟨"mongodb://localhost:27017", "db", "logs"⟩,
      [("message", PyVal.vStr "hello"), ("timestamp", PyVal.vTime 5),
       ("level", PyVal.vStr "INFO")]⟩
    (by rw [emit_ok_oracle]; simp [baseEntry, setKey, LogRecord.levelname, levelName])
  exact h.2.2.2 "hello" rfl

/-- C6: constructing the decorator N ≥ 1 times with the same collection
configuration registers exactly one handler on the shared
`"MongoDBLogger"` logger (the `if not self.logger.handlers` guard makes
re-registration a no-op), and a dispatch through the resulting logger at any
admitted severity performs exactly one storage write, independently of N. -/
theorem C6_idempotent_registration (cfg : CollectionRef) (n : Nat) (hn : 1 ≤ n)
    (lvl : Nat) (hl : DEBUG ≤ lvl) (now : ℚ) (msg : LogMsg) :
    (getLogger ((MongoDBLogDecorator.init cfg)^[n] []) loggerName).handlers
      = [⟨cfg, NOTSET⟩] ∧
    ((getLogger ((MongoDBLogDecorator.init cfg)^[n] []) loggerName).logAt lvl true now
      msg).length = 1 := by
  rw [init_iterate cfg n hn, getLogger_single]
  refine ⟨rfl, ?_⟩
  rw [logAt_single cfg lvl hl, emit_ok_oracle]
  rfl

/-- C6 witness: three identical constructions, one handler, one write. -/
theorem C6_idempotent_registration_witness :
    (getLogger ((MongoDBLogDecorator.init ⟨"c", "d", "e"⟩)^[3] []) loggerName).handlers
      = [⟨⟨"c", "d", "e"⟩, NOTSET⟩] ∧
    ((getLogger ((MongoDBLogDecorator.init ⟨"c", "d", "e"⟩)^[3] []) loggerName).logAt 20 true 0
      (LogMsg.mStr "x")).length = 1 :=
  C6_idempotent_registration ⟨"c", "d", "e"⟩ 3 (by decide) 20 (by decide) 0 (LogMsg.mStr "x")

/-- C10: the duplicate-registration guard keys only on the shared logger
name: after a first decorator instance has registered its handler, a second
instance built with a different collection configuration registers no
handler at all, and a record dispatched through the shared logger is written
to the first instance's collection. -/
theorem C10_guard_keys_on_logger_name (c1 c2 : CollectionRef) (_hne : c1 ≠ c2) (now : ℚ)
    (msg : LogMsg) :
    (getLogger (MongoDBLogDecorator.init c2 (MongoDBLogDecorator.init c1 []))
        loggerName).handlers = [⟨c1, NOTSET⟩] ∧
    ((getLogger (MongoDBLogDecorator.init c2 (MongoDBLogDecorator.init c1 []))
        loggerName).logAt INFO true now msg).map Write.target = [c1] := by
  rw [init_nil, init_already c2 _ (by simp), getLogger_single]
  refine ⟨rfl, ?_⟩
  rw [logAt_single c1 INFO (by decide), emit_ok_oracle]
  rfl

/-- C10 witness: two instances with different hosts, databases and
collections; the second registers nothing and a record lands in the first
instance's collection. -/
theorem C10_guard_keys_on_logger_name_witness :
    (getLogger (MongoDBLogDecorator.init ⟨"hostB", "dbB", "collB"⟩
        (MongoDBLogDecorator.init ⟨"hostA", "dbA", "collA"⟩ [])) loggerName).handlers
      = [⟨⟨"hostA", "dbA", "collA"⟩, NOTSET⟩] ∧
    ((getLogger (MongoDBLogDecorator.init ⟨"hostB", "dbB", "collB"⟩
        (MongoDBLogDecorator.init ⟨"hostA", "dbA", "collA"⟩ [])) loggerName).logAt INFO true 0
      (LogMsg.mStr "m")).map Write.target = [⟨"hostA", "dbA", "collA"⟩] :=
  C10_guard_keys_on_logger_name ⟨"hostA", "dbA", "collA"⟩ ⟨"hostB", "dbB", "collB"⟩
    (by decide) 0 (LogMsg.mStr "m")

theorem round2_zero : round2 0 = 0 := by
  rw [round2, roundHalfEven]
  norm_num

/-- A raising invocation whose stringifications all succeed: the wrapped
callable raises `ValueError("boom")`. -/
def ivC1 : Invocation ℚ :=
  { funcName := "f"
  , call := Except.error ⟨"ValueError", "boom"⟩
  , strArgs := Except.ok "(-1,)"
  , strKwargs := Except.ok "\x7b\x7d"
  , strOf := fun q => Except.ok (pyFloatStr q)
  , t0 := 0
  , t1 := 0 }

/-- C1 counterexample: on a raised failure the record's `result` field is
not absent — the wrapper always stores `str(result)`, which on the error
path is the string `"None"` — while `error_message` (`exception`) is
present, so "never both present" fails. -/
theorem C1_counterexample :
    ivC1.call = Except.error ⟨"ValueError", "boom"⟩ ∧
    (wrapperRun ivC1).emitted =
      [(ERROR,
        { function := "f", args := "(-1,)", kwargs := "\x7b\x7d", result := "None"
        , exception := some "boom", status := "error", duration_ms := 0 })] ∧
    lookupKey (LogPayload.toDoc
      { function := "f", args := "(-1,)", kwargs := "\x7b\x7d", result := "None"
      , exception := some "boom", status := "error", duration_ms := 0 }) "result"
      = some (PyVal.vStr "None") := by
  refine ⟨rfl, ?_, by decide⟩
  rw [wrapperRun_error ivC1 ⟨"ValueError", "boom"⟩ "(-1,)" "\x7b\x7d" rfl rfl rfl]
  norm_num [ivC1, round2_zero]

/-- C1 (amended): on a normal return the record has `status = "success"`,
`result` the stringified return value and `exception = None`; on a raised
failure it has `status = "error"`, `exception` equal to the failure's
message, and `result` not absent but equal to the string `"None"` (the
stringification of the sentinel `None`); the raised-failure case is
signalled by `exception` alone. -/
theorem C1_result_exception_fields {β : Type} (iv : Invocation β) (sa sk : String)
    (ha : iv.strArgs = Except.ok sa) (hk : iv.strKwargs = Except.ok sk) :
    (∀ v sr, iv.call = Except.ok v → iv.strOf v = Except.ok sr →
      (wrapperRun iv).emitted =
        [(INFO,
          { function := iv.funcName, args := sa, kwargs := sk, result := sr
          , exception := none, status := "success"
          , duration_ms := round2 ((iv.t1 - iv.t0) * 1000) })]) ∧
    (∀ e, iv.call = Except.error e →
      (wrapperRun iv).emitted =
        [(ERROR,
          { function := iv.funcName, args := sa, kwargs := sk, result := "None"
          , exception := some e.msg, status := "error"
          , duration_ms := round2 ((iv.t1 - iv.t0) * 1000) })]) := by
  constructor
  · intro v sr hc hr
    rw [wrapperRun_ok iv v sa sk sr hc ha hk hr]
  · intro e hc
    rw [wrapperRun_error iv e sa sk hc ha hk]

/-- A successful invocation used to witness the amended C1. -/
def ivC1w : Invocation ℚ :=
  { funcName := "f"
  , call := Except.ok 5
  , strArgs := Except.ok "(5,)"
  , strKwargs := Except.ok "\x7b\x7d"
  , strOf := fun _ => Except.ok "5.0"
  , t0 := 0
  , t1 := 0 }

/-- C1 witness: the success branch of the amended claim at a concrete
invocation. -/
theorem C1_result_exception_fields_witness :
    (wrapperRun ivC1w).emitted =
      [(INFO,
        { function := "f", args := "(5,)", kwargs := "\x7b\x7d", result := "5.0"
        , exception := none, status := "success", duration_ms := 0 })] := by
  rw [(C1_result_exception_fields ivC1w "(5,)" "\x7b\x7d" rfl rfl).1 5 "5.0" rfl rfl]
  norm_num [ivC1w, round2_zero]

/-- A raising invocation whose argument tuple cannot be stringified. -/
def ivC2 : Invocation ℚ :=
  { funcName := "g"
  , call := Except.error ⟨"ValueError", "negative price"⟩
  , strArgs := Except.error ⟨"RuntimeError", "unprintable argument"⟩
  , strKwargs := Except.ok "\x7b\x7d"
  , strOf := fun q => Except.ok (pyFloatStr q)
  , t0 := 0
  , t1 := 0 }

/-- C2 counterexample: the wrapped callable raises `ValueError`, but
`str(args)` in the `finally` block raises `RuntimeError`; the exception
reaching the caller is the stringification failure, not the original one,
and no telemetry record is emitted on this exit path. -/
theorem C2_counterexample :
    ivC2.call = Except.error ⟨"ValueError", "negative price"⟩ ∧
    (wrapperRun ivC2).outcome = Except.error ⟨"RuntimeError", "unprintable argument"⟩ ∧
    (wrapperRun ivC2).emitted = [] := by
  refine ⟨rfl, ?_, ?_⟩ <;>
    rw [wrapperRun_strArgs_fail ivC2 ⟨"RuntimeError", "unprintable argument"⟩ rfl]

/-- C2 (amended): provided the stringifications of the arguments, keyword
arguments and result succeed, the wrapper is outcome-transparent — it
returns exactly the wrapped callable's value, or re-raises the original
failure with the same type and message — and one telemetry record is
emitted on that exit path. -/
theorem C2_outcome_transparent {β : Type} (iv : Invocation β) (sa sk sr : String)
    (ha : iv.strArgs = Except.ok sa) (hk : iv.strKwargs = Except.ok sk)
    (hr : resStr iv = Except.ok sr) :
    (wrapperRun iv).outcome = iv.call ∧ (wrapperRun iv).emitted.length = 1 := by
  cases hc : iv.call with
  | ok v =>
    have hv : iv.strOf v = Except.ok sr := by rw [resStr, hc] at hr; exact hr
    rw [wrapperRun_ok iv v sa sk sr hc ha hk hv]
    exact ⟨rfl, rfl⟩
  | error e =>
    rw [wrapperRun_error iv e sa sk hc ha hk]
    exact ⟨rfl, rfl⟩

/-- A raising invocation with well-behaved stringification, to witness the
amended C2. -/
def ivC2w : Invocation ℚ :=
  { funcName := "g"
  , call := Except.error ⟨"ValueError", "negative price"⟩
  , strArgs := Except.ok "(-100, 0.1)"
  , strKwargs := Except.ok "\x7b\x7d"
  , strOf := fun _ => Except.ok "None"
  , t0 := 0
  , t1 := 0 }

/-- C2 witness: the original `ValueError` with its message is what reaches
the caller, and one record is emitted. -/
theorem C2_outcome_transparent_witness :
    (wrapperRun ivC2w).outcome = Except.error ⟨"ValueError", "negative price"⟩ ∧
    (wrapperRun ivC2w).emitted.length = 1 :=
  C2_outcome_transparent ivC2w "(-100, 0.1)" "\x7b\x7d" "None" rfl rfl rfl

/-- A successful invocation whose result object cannot be stringified. -/
def ivC4 : Invocation ℚ :=
  { funcName := "h"
  , call := Except.ok 7
  , strArgs := Except.ok "(7,)"
  , strKwargs := Except.ok "\x7b\x7d"
  , strOf := fun _ => Except.error ⟨"TypeError", "unrepresentable result"⟩
  , t0 := 0
  , t1 := 0 }

/-- C4 counterexample: the wrapped callable returns 7, but `str(result)`
raises; nothing degrades to a placeholder — the stringification failure
aborts instrumentation and propagates out of the wrapper, replacing the
call's normal return. -/
theorem C4_counterexample :
    ivC4.call = Except.ok 7 ∧
    (wrapperRun ivC4).outcome = Except.error ⟨"TypeError", "unrepresentable result"⟩ ∧
    (wrapperRun ivC4).emitted = [] := by
  refine ⟨rfl, ?_, ?_⟩ <;>
    rw [wrapperRun_strRes_fail ivC4 "(7,)" "\x7b\x7d" ⟨"TypeError", "unrepresentable result"⟩
      rfl rfl rfl]

/-- C4 (amended): argument/result stringification is unguarded in the
wrapper: whichever of `str(args)`, `str(kwargs)`, `str(result)` fails first,
its failure propagates out of the wrapper as the call's outcome, no
placeholder is substituted and no record is emitted. -/
theorem C4_stringify_unguarded {β : Type} (iv : Invocation β) (e : PyExn) :
    (iv.strArgs = Except.error e → wrapperRun iv = ⟨Except.error e, []⟩) ∧
    (∀ sa, iv.strArgs = Except.ok sa → iv.strKwargs = Except.error e →
      wrapperRun iv = ⟨Except.error e, []⟩) ∧
    (∀ sa sk, iv.strArgs = Except.ok sa → iv.strKwargs = Except.ok sk →
      resStr iv = Except.error e → wrapperRun iv = ⟨Except.error e, []⟩) :=
  ⟨fun ha => wrapperRun_strArgs_fail iv e ha,
   fun sa ha hk => wrapperRun_strKwargs_fail iv sa e ha hk,
   fun sa sk ha hk hr => wrapperRun_strRes_fail iv sa sk e ha hk hr⟩

/-- C4 witness: the result-stringification case at the concrete invocation. -/
theorem C4_stringify_unguarded_witness :
    wrapperRun ivC4 = ⟨Except.error ⟨"TypeError", "unrepresentable result"⟩, []⟩ :=
  (C4_stringify_unguarded ivC4 ⟨"TypeError", "unrepresentable result"⟩).2.2 "(7,)" "\x7b\x7d"
    rfl rfl rfl

/-- A successful invocation whose keyword dict cannot be stringified. -/
def ivC7 : Invocation ℚ :=
  { funcName := "k"
  , call := Except.ok 1
  , strArgs := Except.ok "()"
  , strKwargs := Except.error ⟨"TypeError", "unprintable keyword"⟩
  , strOf := fun q => Except.ok (pyFloatStr q)
  , t0 := 0
  , t1 := 0 }

/-- C7 counterexample: an exit path (the wrapped callable returned 1, then
`str(kwargs)` raised in the `finally` block) on which zero records — not
exactly one — are emitted. -/
theorem C7_counterexample :
    (wrapperRun ivC7).emitted = [] ∧
    (wrapperRun ivC7).outcome = Except.error ⟨"TypeError", "unprintable keyword"⟩ := by
  refine ⟨?_, ?_⟩ <;>
    rw [wrapperRun_strKwargs_fail ivC7 "()" ⟨"TypeError", "unprintable keyword"⟩ rfl rfl]

/-- C7 (amended): provided stringification succeeds, exactly one record is
emitted per invocation, at a severity that is a pure function of the
outcome: `info` (20) after a normal return, `error` (40) after a raise. -/
theorem C7_one_record_by_outcome {β : Type} (iv : Invocation β) (sa sk sr : String)
    (ha : iv.strArgs = Except.ok sa) (hk : iv.strKwargs = Except.ok sk)
    (hr : resStr iv = Except.ok sr) :
    (∀ v, iv.call = Except.ok v → (wrapperRun iv).emitted.map Prod.fst = [INFO]) ∧
    (∀ e, iv.call = Except.error e → (wrapperRun iv).emitted.map Prod.fst = [ERROR]) := by
  constructor
  · intro v hc
    have hv : iv.strOf v = Except.ok sr := by rw [resStr, hc] at hr; exact hr
    rw [wrapperRun_ok iv v sa sk sr hc ha hk hv]
    rfl
  · intro e hc
    rw [wrapperRun_error iv e sa sk hc ha hk]
    rfl

/-- A successful invocation with well-behaved stringification, to witness
the amended C7. -/
def ivC7w : Invocation ℚ :=
  { funcName := "k"
  , call := Except.ok 1
  , strArgs := Except.ok "()"
  , strKwargs := Except.ok "\x7b\x7d"
  , strOf := fun _ => Except.ok "1.0"
  , t0 := 0
  , t1 := 0 }

/-- C7 witness: the success branch dispatches at severity `info` (20). -/
theorem C7_one_record_by_outcome_witness :
    (wrapperRun ivC7w).emitted.map Prod.fst = [INFO] :=
  (C7_one_record_by_outcome ivC7w "()" "\x7b\x7d" "1.0" rfl rfl rfl).1 1 rfl

/-- The decorator configuration of the usage example
(decorator.py lines 80-84). -/
def cfgA : CollectionRef := ⟨"mongodb://localhost:27017", "app_logs", "function_traces"⟩

/-- Registry state after constructing the decorator once. -/
def regA : Registry := MongoDBLogDecorator.init cfgA []

/-- The invocation `calculate_payment(1000, 0.1)`: Python evaluates
`str((1000, 0.1))` to `"(1000, 0.1)"` and `str({})` to `"{}"`; the call
enters at `t0 = 100 s` and reaches the `finally` block 3 ms later. -/
def ivA : Invocation ℚ :=
  { funcName := "calculate_payment"
  , call := calculate_payment 1000 (1/10)
  , strArgs := Except.ok "(1000, 0.1)"
  , strKwargs := Except.ok "\x7b\x7d"
  , strOf := fun q => Except.ok (pyFloatStr q)
  , t0 := 100
  , t1 := 100 + 3/1000 }

/-- C5: end-to-end scenario A. Wrapping `calculate_payment` and calling it
with `(1000, 0.1)` returns `1100.0` (exact in binary64, modelled as the
rational 1100) to the caller, and exactly one document is persisted, with
`status = "success"`, `result = "1100.0"` and `function` naming the wrapped
function. -/
theorem C5_scenarioA :
    wrapperFull ivA regA true 101 =
      (Except.ok 1100,
       [⟨cfgA,
        [ ("function", PyVal.vStr "calculate_payment")
        , ("args", PyVal.vStr "(1000, 0.1)")
        , ("kwargs", PyVal.vStr "\x7b\x7d")
        , ("result", PyVal.vStr "1100.0")
        , ("exception", PyVal.vNone)
        , ("status", PyVal.vStr "success")
        , ("duration_ms", PyVal.vNum 3)
        , ("timestamp", PyVal.vTime 101)
        , ("level", PyVal.vStr "INFO") ]⟩]) := by
  have hcall : calculate_payment 1000 (1/10) = Except.ok 1100 := by
    rw [calculate_payment]
    norm_num
  have hdur : round2 (((100:ℚ) + 3/1000 - 100) * 1000) = 3 := by
    rw [round2, roundHalfEven]
    norm_num
  have hstr : pyFloatStr 1100 = "1100.0" := by
    rw [pyFloatStr]
    norm_num
    decide
  simp only [wrapperFull, wrapperRun, resStr, ivA, hcall, hdur, hstr, regA, cfgA,
    MongoDBLogDecorator.init, getLogger, updLogger, freshLogger, loggerName,
    LoggerState.logAt, MongoDBHandler.emit, MongoDBHandler.emitTry, insertOne,
    baseEntry, setKey, LogPayload.toDoc, LogRecord.levelname, levelName,
    INFO, ERROR, DEBUG, NOTSET]
  norm_num
  decide

/-- C9: on both exit paths (given that stringification succeeds), the
emitted record's `duration_ms` is the elapsed wall-clock time between the
`time()` reading at call entry and the one in the `finally` block,
converted to milliseconds and rounded half-to-even to 2 decimal digits; it
is nonnegative when the clock did not go backwards, at least `T` for a call
whose execution took at least `T` ms, and `100 * duration_ms` is an
integer. -/
theorem C9_duration_rounded {β : Type} (iv : Invocation β) (sa sk sr : String) (T : ℤ)
    (ha : iv.strArgs = Except.ok sa) (hk : iv.strKwargs = Except.ok sk)
    (hr : resStr iv = Except.ok sr) (h01 : iv.t0 ≤ iv.t1)
    (hT : (T : ℚ) ≤ (iv.t1 - iv.t0) * 1000) :
    ∀ sp ∈ (wrapperRun iv).emitted,
      sp.2.duration_ms = round2 ((iv.t1 - iv.t0) * 1000) ∧
      0 ≤ sp.2.duration_ms ∧
      (T : ℚ) ≤ sp.2.duration_ms ∧
      (sp.2.duration_ms * 100).den = 1 := by
  have hd : (0:ℚ) ≤ (iv.t1 - iv.t0) * 1000 :=
    mul_nonneg (sub_nonneg.mpr h01) (by norm_num)
  intro sp hsp
  have hfield : sp.2.duration_ms = round2 ((iv.t1 - iv.t0) * 1000) := by
    cases hc : iv.call with
    | ok v =>
      have hv : iv.strOf v = Except.ok sr := by rw [resStr, hc] at hr; exact hr
      rw [wrapperRun_ok iv v sa sk sr hc ha hk hv] at hsp
      rw [List.mem_singleton] at hsp
      rw [hsp]
    | error e =>
      rw [wrapperRun_error iv e sa sk hc ha hk] at hsp
      rw [List.mem_singleton] at hsp
      rw [hsp]
  refine ⟨hfield, ?_, ?_, ?_⟩
  · rw [hfield]
    exact round2_nonneg _ hd
  · rw [hfield]
    exact round2_ge_int _ T hT
  · rw [hfield]
    exact round2_two_decimals _

/-- A successful invocation that blocks for 500 ms, to witness C9. -/
def ivC9w : Invocation ℚ :=
  { funcName := "s"
  , call := Except.ok 2
  , strArgs := Except.ok "()"
  , strKwargs := Except.ok "\x7b\x7d"
  , strOf := fun _ => Except.ok "2.0"
  , t0 := 0
  , t1 := 1/2 }

/-- The record payload emitted for `ivC9w`. -/
def pC9w : LogPayload :=
  { function := "s", args := "()", kwargs := "\x7b\x7d", result := "2.0"
  , exception := none, status := "success"
  , duration_ms := round2 ((ivC9w.t1 - ivC9w.t0) * 1000) }

/-- C9 witness: for a call that took 500 ms, the emitted duration is the
rounded elapsed time, nonnegative, at least 100 ms, and 2-decimal. -/
theorem C9_duration_rounded_witness :
    pC9w.duration_ms = round2 ((ivC9w.t1 - ivC9w.t0) * 1000) ∧
    0 ≤ pC9w.duration_ms ∧
    ((100 : ℤ) : ℚ) ≤ pC9w.duration_ms ∧
    (pC9w.duration_ms * 100).den = 1 :=
  C9_duration_rounded ivC9w "()" "\x7b\x7d" "2.0" 100 rfl rfl rfl
    (by norm_num [ivC9w]) (by norm_num [ivC9w]) (INFO, pC9w)
    (by rw [wrapperRun_ok ivC9w 2 "()" "\x7b\x7d" "2.0" rfl rfl rfl rfl]
        exact List.mem_singleton.mpr rfl)

end LoggingPlayground
